import Mathlib

/-!
Verification of the entry-point resolution pass of `src/librustc/middle/entry.rs`.

The pass classifies every item of a crate (`entry_point_type`), accumulates at
most one candidate per entry kind in an `EntryContext` (`find_item`), and then
selects the winning entry point by a fixed precedence order (`configure_main`).
`find_entry_point` drives the whole pass, short-circuiting for non-executable
crates and for crates carrying the `no_main` attribute.

The Rust code is embedded shallowly: node ids, def ids and spans become `Nat`;
the visitor traversal becomes a fold over an explicit list of items, each item
paired with its `at_root` flag (which the external `ast_map` computes); the
`Session`'s `entry_fn` / `entry_type` cells and the diagnostic sink become
fields of a `Session` record that the pass threads through functionally.
-/

namespace Rustc

/-- `syntax::ast::NodeId`, embedded as a natural number. -/
abbrev NodeId := Nat

/-- `syntax_pos::Span`, embedded as a natural number identifying a location. -/
abbrev Span := Nat

/-- `hir::def_id::DefId`, embedded as a natural number.  `map.local_def_id`
is the identity under this embedding, so `DefId = NodeId`. -/
abbrev DefId := Nat

/-- `syntax::entry::EntryPointType`: the classification of one item. -/
inductive EntryPointType where
  | Start
  | MainAttr
  | MainNamed
  | ImportedMain
  | OtherMain
  | None
deriving DecidableEq, Repr

/-- One entry of a `use a::b::{c as d, e}` list (`hir::PathListItem`): the
listed name together with its optional rename. -/
structure PathListItem where
  name : String
  rename : Option String
deriving DecidableEq, Repr

/-- `hir::ViewPath_`: the shape of a `use` item.  The path component is not
consulted by this pass and is omitted. -/
inductive ViewPath_ where
  | ViewPathSimple (name : String)
  | ViewPathGlob
  | ViewPathList (items : List PathListItem)
deriving DecidableEq, Repr

/-- The shape of an item's node: a function (`ItemFn`), a `use` (`ItemUse`),
or any other item kind, which this pass treats uniformly. -/
inductive ItemNode where
  | ItemFn
  | ItemUse (vp : ViewPath_)
  | ItemOther
deriving DecidableEq, Repr

/-- `hir::Item`, restricted to the fields the pass reads: id, name, the set of
attribute names present, the node shape, and the source span. -/
structure Item where
  id : NodeId
  name : String
  attrs : List String
  node : ItemNode
  span : Span
deriving DecidableEq, Repr

/-- `syntax::attr::contains_name`: whether an attribute with the given name is
present. -/
def contains_name (attrs : List String) (name : String) : Bool :=
  attrs.contains name

/-- `imported_as_main` (entry.rs:123-137): a `use` binds the name `main`
exactly when it is a simple view path whose bound name is `main`, or a list
view path one of whose items is renamed to `main`; a glob never qualifies. -/
def imported_as_main (vp : ViewPath_) : Bool :=
  match vp with
  | .ViewPathSimple n => n == "main"
  | .ViewPathGlob => false
  | .ViewPathList v => v.any fun item => item.rename.any fun x => x == "main"

/-- `entry_point_type` (entry.rs:96-121): classify one item given its
`at_root` flag and the (lazily evaluated, but pure) `defined_as_main`
membership test, here passed as a boolean. -/
def entry_point_type (item : Item) (at_root : Bool) (defined_as_main : Bool) :
    EntryPointType :=
  match item.node with
  | .ItemFn =>
    if contains_name item.attrs "start" then .Start
    else if contains_name item.attrs "main" then .MainAttr
    else if item.name == "main" then
      if at_root then .MainNamed
      else if defined_as_main then .ImportedMain
      else .OtherMain
    else if defined_as_main then .ImportedMain
    else .None
  | .ItemUse vp => if imported_as_main vp then .ImportedMain else .None
  | .ItemOther => .None

/-- The diagnostics this pass can emit, with the source locations each one
carries.  `duplicateMainNamed` is `span_err!(.., item.span, E0136, ..)` and
carries only the offending span; `duplicateMainAttr` (E0137) labels the
offending and the first span; `duplicateStart` (E0138) labels the previous
and the offending span; `mainNotFound` is the `"main function not found"`
error, with `crateNote` recording whether the crate-level note was attached
and `hints` the spans of the `span_note`s, one per non-root `main`.
`unstableReexportEntry` is listed in the specification's taxonomy for a
feature-gate diagnostic on the re-export path; no code in entry.rs
constructs it. -/
inductive Diagnostic where
  | duplicateMainNamed (offending : Span)
  | duplicateMainAttr (offending : Span) (first : Span)
  | duplicateStart (previous : Span) (offending : Span)
  | mainNotFound (crateNote : Bool) (hints : List Span)
  | unstableReexportEntry (capability : String) (offending : Span)
deriving DecidableEq, Repr

/-- The source locations a diagnostic references. -/
def Diagnostic.spans : Diagnostic → List Span
  | .duplicateMainNamed off => [off]
  | .duplicateMainAttr off first => [off, first]
  | .duplicateStart prev off => [prev, off]
  | .mainNotFound _ hints => hints
  | .unstableReexportEntry _ off => [off]

/-- `session::config::CrateType`, restricted to what the pass tests. -/
inductive CrateType where
  | CrateTypeExecutable
  | CrateTypeDylib
  | CrateTypeRlib
  | CrateTypeStaticlib
deriving DecidableEq, Repr

/-- `session::config::EntryFnType` (`EntryMain` / `EntryStart` / `EntryNone`),
the tag stored in `session.entry_type`. -/
inductive EntryType where
  | EntryMain
  | EntryStart
  | EntryNone
deriving DecidableEq, Repr

/-- The slice of `session::Session` this pass touches: the crate types, the
`entry_fn` and `entry_type` cells (initially `none`), the feature-gate state
for re-exported entry points (present in the session, never read by this
pass), and the diagnostic sink, embedded as the list of emitted diagnostics
in emission order. -/
structure Session where
  crate_types : List CrateType
  entry_fn : Option (NodeId × Span)
  entry_type : Option EntryType
  features_reexport_unstable : Bool
  diags : List Diagnostic
deriving DecidableEq, Repr

/-- Emitting one diagnostic appends it to the sink. -/
def Session.emit (s : Session) (d : Diagnostic) : Session :=
  { s with diags := s.diags ++ [d] }

/-- `EntryContext` (entry.rs:25-48): the accumulator of the pass. -/
structure EntryContext where
  session : Session
  main_fn : Option (NodeId × Span)
  imported_main_fn : Option (NodeId × Span)
  attr_main_fn : Option (NodeId × Span)
  start_fn : Option (NodeId × Span)
  non_main_fns : List (NodeId × Span)
  defined_as_main : List DefId
deriving DecidableEq, Repr

/-- `find_item` (entry.rs:139-181).  The `ImportedMain` arm assigns the slot
unconditionally, exactly as line 177 does. -/
def find_item (item : Item) (ctxt : EntryContext) (at_root : Bool) :
    EntryContext :=
  match entry_point_type item at_root (ctxt.defined_as_main.contains item.id) with
  | .MainNamed =>
    match ctxt.main_fn with
    | none => { ctxt with main_fn := some (item.id, item.span) }
    | some _ =>
      { ctxt with session := ctxt.session.emit (.duplicateMainNamed item.span) }
  | .OtherMain =>
    { ctxt with non_main_fns := ctxt.non_main_fns ++ [(item.id, item.span)] }
  | .MainAttr =>
    match ctxt.attr_main_fn with
    | none => { ctxt with attr_main_fn := some (item.id, item.span) }
    | some first =>
      { ctxt with session :=
          ctxt.session.emit (.duplicateMainAttr item.span first.2) }
  | .Start =>
    match ctxt.start_fn with
    | none => { ctxt with start_fn := some (item.id, item.span) }
    | some prev =>
      { ctxt with session :=
          ctxt.session.emit (.duplicateStart prev.2 item.span) }
  | .ImportedMain =>
    { ctxt with imported_main_fn := some (item.id, item.span) }
  | .None => ctxt

/-- `configure_main` (entry.rs:183-213): the selector.  Precedence is
`start_fn`, then `attr_main_fn`, then `main_fn`, then `imported_main_fn`; on
failure the `"main function not found"` error is emitted, with the crate-level
note and one span note per non-root `main` when `non_main_fns` is non-empty. -/
def configure_main (this : EntryContext) : EntryContext :=
  if this.start_fn.isSome then
    { this with session :=
        { this.session with entry_fn := this.start_fn,
                            entry_type := some .EntryStart } }
  else if this.attr_main_fn.isSome then
    { this with session :=
        { this.session with entry_fn := this.attr_main_fn,
                            entry_type := some .EntryMain } }
  else if this.main_fn.isSome then
    { this with session :=
        { this.session with entry_fn := this.main_fn,
                            entry_type := some .EntryMain } }
  else if this.imported_main_fn.isSome then
    { this with session :=
        { this.session with entry_fn := this.imported_main_fn,
                            entry_type := some .EntryMain } }
  else
    if !this.non_main_fns.isEmpty then
      { this with session := this.session.emit (.mainNotFound true (this.non_main_fns.map Prod.snd)) }
    else
      { this with session := this.session.emit (.mainNotFound false []) }

/-- The fresh `EntryContext` built by `find_entry_point` (entry.rs:78-87). -/
def initialCtxt (session : Session) (defined_as_main : List DefId) :
    EntryContext :=
  { session := session
    main_fn := none
    imported_main_fn := none
    attr_main_fn := none
    start_fn := none
    non_main_fns := []
    defined_as_main := defined_as_main }

/-- `krate().visit_all_items`: the external traversal delivers each item
together with its `at_root` flag (computed from the def key by the visitor,
entry.rs:51-56); the pass folds `find_item` over that sequence. -/
def visit_all_items (items : List (Item × Bool)) (ctxt : EntryContext) :
    EntryContext :=
  items.foldl (fun c p => find_item p.1 c p.2) ctxt

/-- The crate as this pass sees it: its attribute names and its item
sequence in visitation order, each item with its `at_root` flag. -/
structure Krate where
  attrs : List String
  items : List (Item × Bool)
deriving DecidableEq, Repr

/-- `find_entry_point` (entry.rs:59-92): skip entirely unless some crate type
is executable; on a `no_main` crate attribute set `entry_type` to `EntryNone`
and stop; otherwise run the pass and the selector.  (The two `println!`
debugging statements write to stdout, not to the diagnostic sink, and are not
modelled.) -/
def find_entry_point (session : Session) (krate : Krate)
    (defined_as_main : List DefId) : Session :=
  let any_exe := session.crate_types.any fun ty => ty == CrateType.CrateTypeExecutable
  if !any_exe then
    session
  else if contains_name krate.attrs "no_main" then
    { session with entry_type := some .EntryNone }
  else
    (configure_main (visit_all_items krate.items
        (initialCtxt session defined_as_main))).session

/-! ### Characterizations of one `find_item` step -/

/-- The classification of one visited pair (item, at_root flag) relative to a
fixed `defined_as_main` set.  `find_item` never modifies `defined_as_main`,
so this is the classification the pass applies to every item. -/
def classify (dm : List DefId) (p : Item × Bool) : EntryPointType :=
  entry_point_type p.1 p.2 (dm.contains p.1.id)

/-- The candidate produced by the earliest-visited declaration of kind `k`
in the visitation sequence `l`. -/
def firstCand (dm : List DefId) (k : EntryPointType) :
    List (Item × Bool) → Option (NodeId × Span)
  | [] => none
  | p :: t =>
    if classify dm p = k then some (p.1.id, p.1.span) else firstCand dm k t

/-- The candidate produced by the latest-visited declaration of kind `k`. -/
def lastCand (dm : List DefId) (k : EntryPointType) (l : List (Item × Bool)) :
    Option (NodeId × Span) :=
  firstCand dm k l.reverse

/-- The diagnostics one `find_item` step emits. -/
def stepDiags (item : Item) (ctxt : EntryContext) (at_root : Bool) :
    List Diagnostic :=
  match entry_point_type item at_root (ctxt.defined_as_main.contains item.id) with
  | .MainNamed =>
    match ctxt.main_fn with
    | none => []
    | some _ => [.duplicateMainNamed item.span]
  | .MainAttr =>
    match ctxt.attr_main_fn with
    | none => []
    | some first => [.duplicateMainAttr item.span first.2]
  | .Start =>
    match ctxt.start_fn with
    | none => []
    | some prev => [.duplicateStart prev.2 item.span]
  | _ => []

/-- Recognizer for the E0136 duplicate-`main` diagnostic. -/
def isDupNamed : Diagnostic → Bool
  | .duplicateMainNamed _ => true
  | _ => false

/-- Recognizer for the E0137 duplicate-`#[main]` diagnostic. -/
def isDupAttr : Diagnostic → Bool
  | .duplicateMainAttr _ _ => true
  | _ => false

/-- Recognizer for the E0138 duplicate-`#[start]` diagnostic. -/
def isDupStart : Diagnostic → Bool
  | .duplicateStart _ _ => true
  | _ => false

theorem find_item_defined (item : Item) (ctxt : EntryContext) (ar : Bool) :
    (find_item item ctxt ar).defined_as_main = ctxt.defined_as_main := by
  unfold find_item
  cases h : entry_point_type item ar (ctxt.defined_as_main.contains item.id) <;>
    cases hm : ctxt.main_fn <;> cases ha : ctxt.attr_main_fn <;>
      cases hs : ctxt.start_fn <;> rfl

theorem find_item_main_fn (item : Item) (ctxt : EntryContext) (ar : Bool) :
    (find_item item ctxt ar).main_fn =
      if entry_point_type item ar (ctxt.defined_as_main.contains item.id)
          = EntryPointType.MainNamed then
        (match ctxt.main_fn with
         | none => some (item.id, item.span)
         | some c => some c)
      else ctxt.main_fn := by
  unfold find_item
  cases h : entry_point_type item ar (ctxt.defined_as_main.contains item.id) <;>
    cases hm : ctxt.main_fn <;> cases ha : ctxt.attr_main_fn <;>
      cases hs : ctxt.start_fn <;> simp

theorem find_item_attr_fn (item : Item) (ctxt : EntryContext) (ar : Bool) :
    (find_item item ctxt ar).attr_main_fn =
      if entry_point_type item ar (ctxt.defined_as_main.contains item.id)
          = EntryPointType.MainAttr then
        (match ctxt.attr_main_fn with
         | none => some (item.id, item.span)
         | some c => some c)
      else ctxt.attr_main_fn := by
  unfold find_item
  cases h : entry_point_type item ar (ctxt.defined_as_main.contains item.id) <;>
    cases hm : ctxt.main_fn <;> cases ha : ctxt.attr_main_fn <;>
      cases hs : ctxt.start_fn <;> simp

theorem find_item_start_fn (item : Item) (ctxt : EntryContext) (ar : Bool) :
    (find_item item ctxt ar).start_fn =
      if entry_point_type item ar (ctxt.defined_as_main.contains item.id)
          = EntryPointType.Start then
        (match ctxt.start_fn with
         | none => some (item.id, item.span)
         | some c => some c)
      else ctxt.start_fn := by
  unfold find_item
  cases h : entry_point_type item ar (ctxt.defined_as_main.contains item.id) <;>
    cases hm : ctxt.main_fn <;> cases ha : ctxt.attr_main_fn <;>
      cases hs : ctxt.start_fn <;> simp

theorem find_item_imported_fn (item : Item) (ctxt : EntryContext) (ar : Bool) :
    (find_item item ctxt ar).imported_main_fn =
      if entry_point_type item ar (ctxt.defined_as_main.contains item.id)
          = EntryPointType.ImportedMain then
        some (item.id, item.span)
      else ctxt.imported_main_fn := by
  unfold find_item
  cases h : entry_point_type item ar (ctxt.defined_as_main.contains item.id) <;>
    cases hm : ctxt.main_fn <;> cases ha : ctxt.attr_main_fn <;>
      cases hs : ctxt.start_fn <;> simp

theorem find_item_non_main (item : Item) (ctxt : EntryContext) (ar : Bool) :
    (find_item item ctxt ar).non_main_fns =
      if entry_point_type item ar (ctxt.defined_as_main.contains item.id)
          = EntryPointType.OtherMain then
        ctxt.non_main_fns ++ [(item.id, item.span)]
      else ctxt.non_main_fns := by
  unfold find_item
  cases h : entry_point_type item ar (ctxt.defined_as_main.contains item.id) <;>
    cases hm : ctxt.main_fn <;> cases ha : ctxt.attr_main_fn <;>
      cases hs : ctxt.start_fn <;> simp

theorem find_item_diags (item : Item) (ctxt : EntryContext) (ar : Bool) :
    (find_item item ctxt ar).session.diags =
      ctxt.session.diags ++ stepDiags item ctxt ar := by
  unfold find_item stepDiags
  cases h : entry_point_type item ar (ctxt.defined_as_main.contains item.id) <;>
    cases hm : ctxt.main_fn <;> cases ha : ctxt.attr_main_fn <;>
      cases hs : ctxt.start_fn <;> simp [Session.emit]

/-! ### The whole pass as a fold -/

theorem visit_nil (ctxt : EntryContext) : visit_all_items [] ctxt = ctxt := rfl

theorem visit_cons (p : Item × Bool) (t : List (Item × Bool))
    (ctxt : EntryContext) :
    visit_all_items (p :: t) ctxt = visit_all_items t (find_item p.1 ctxt p.2) :=
  rfl

theorem firstCand_append (dm : List DefId) (k : EntryPointType)
    (a b : List (Item × Bool)) :
    firstCand dm k (a ++ b) =
      (match firstCand dm k a with
       | some c => some c
       | none => firstCand dm k b) := by
  induction a with
  | nil => simp [firstCand]
  | cons p t ih => by_cases hk : classify dm p = k <;> simp [firstCand, hk, ih]

theorem lastCand_cons (dm : List DefId) (k : EntryPointType) (p : Item × Bool)
    (t : List (Item × Bool)) :
    lastCand dm k (p :: t) =
      (match lastCand dm k t with
       | some c => some c
       | none =>
         if classify dm p = k then some (p.1.id, p.1.span) else none) := by
  unfold lastCand
  rw [List.reverse_cons, firstCand_append]
  cases firstCand dm k t.reverse <;> simp [firstCand]

theorem visit_main_fn (l : List (Item × Bool)) (ctxt : EntryContext) :
    (visit_all_items l ctxt).main_fn =
      (match ctxt.main_fn with
       | some c => some c
       | none => firstCand ctxt.defined_as_main .MainNamed l) := by
  induction l generalizing ctxt with
  | nil => cases hm : ctxt.main_fn <;> simp [visit_nil, firstCand, hm]
  | cons p t ih =>
      rw [visit_cons, ih, find_item_defined, find_item_main_fn]
      cases hm : ctxt.main_fn <;>
        simp only [hm, firstCand, classify] <;> split <;> simp_all

theorem visit_attr_fn (l : List (Item × Bool)) (ctxt : EntryContext) :
    (visit_all_items l ctxt).attr_main_fn =
      (match ctxt.attr_main_fn with
       | some c => some c
       | none => firstCand ctxt.defined_as_main .MainAttr l) := by
  induction l generalizing ctxt with
  | nil => cases hm : ctxt.attr_main_fn <;> simp [visit_nil, firstCand, hm]
  | cons p t ih =>
      rw [visit_cons, ih, find_item_defined, find_item_attr_fn]
      cases hm : ctxt.attr_main_fn <;>
        simp only [hm, firstCand, classify] <;> split <;> simp_all

theorem visit_start_fn (l : List (Item × Bool)) (ctxt : EntryContext) :
    (visit_all_items l ctxt).start_fn =
      (match ctxt.start_fn with
       | some c => some c
       | none => firstCand ctxt.defined_as_main .Start l) := by
  induction l generalizing ctxt with
  | nil => cases hm : ctxt.start_fn <;> simp [visit_nil, firstCand, hm]
  | cons p t ih =>
      rw [visit_cons, ih, find_item_defined, find_item_start_fn]
      cases hm : ctxt.start_fn <;>
        simp only [hm, firstCand, classify] <;> split <;> simp_all

theorem visit_imported_fn (l : List (Item × Bool)) (ctxt : EntryContext) :
    (visit_all_items l ctxt).imported_main_fn =
      (match lastCand ctxt.defined_as_main .ImportedMain l with
       | some c => some c
       | none => ctxt.imported_main_fn) := by
  induction l generalizing ctxt with
  | nil => simp [visit_nil, lastCand, firstCand]
  | cons p t ih =>
      rw [visit_cons, ih, find_item_defined, find_item_imported_fn, lastCand_cons]
      cases h2 : lastCand ctxt.defined_as_main .ImportedMain t <;>
        simp only [h2, classify] <;> split <;> simp_all

/-! ### Counting the conflict diagnostics of a pass -/

theorem stepDiags_count_named (item : Item) (ctxt : EntryContext) (ar : Bool) :
    (stepDiags item ctxt ar).countP isDupNamed =
      if entry_point_type item ar (ctxt.defined_as_main.contains item.id)
            = EntryPointType.MainNamed ∧ ctxt.main_fn.isSome
      then 1 else 0 := by
  unfold stepDiags
  cases h : entry_point_type item ar (ctxt.defined_as_main.contains item.id) <;>
    cases hm : ctxt.main_fn <;> cases ha : ctxt.attr_main_fn <;>
      cases hs : ctxt.start_fn <;> simp [isDupNamed]

theorem stepDiags_count_attr (item : Item) (ctxt : EntryContext) (ar : Bool) :
    (stepDiags item ctxt ar).countP isDupAttr =
      if entry_point_type item ar (ctxt.defined_as_main.contains item.id)
            = EntryPointType.MainAttr ∧ ctxt.attr_main_fn.isSome
      then 1 else 0 := by
  unfold stepDiags
  cases h : entry_point_type item ar (ctxt.defined_as_main.contains item.id) <;>
    cases hm : ctxt.main_fn <;> cases ha : ctxt.attr_main_fn <;>
      cases hs : ctxt.start_fn <;> simp [isDupAttr]

theorem stepDiags_count_start (item : Item) (ctxt : EntryContext) (ar : Bool) :
    (stepDiags item ctxt ar).countP isDupStart =
      if entry_point_type item ar (ctxt.defined_as_main.contains item.id)
            = EntryPointType.Start ∧ ctxt.start_fn.isSome
      then 1 else 0 := by
  unfold stepDiags
  cases h : entry_point_type item ar (ctxt.defined_as_main.contains item.id) <;>
    cases hm : ctxt.main_fn <;> cases ha : ctxt.attr_main_fn <;>
      cases hs : ctxt.start_fn <;> simp [isDupStart]

theorem stepDiags_count_other (q : Diagnostic → Bool)
    (h1 : ∀ s, q (Diagnostic.duplicateMainNamed s) = false)
    (h2 : ∀ s u, q (Diagnostic.duplicateMainAttr s u) = false)
    (h3 : ∀ s u, q (Diagnostic.duplicateStart s u) = false)
    (item : Item) (ctxt : EntryContext) (ar : Bool) :
    (stepDiags item ctxt ar).countP q = 0 := by
  unfold stepDiags
  cases h : entry_point_type item ar (ctxt.defined_as_main.contains item.id) <;>
    cases hm : ctxt.main_fn <;> cases ha : ctxt.attr_main_fn <;>
      cases hs : ctxt.start_fn <;> simp [h1, h2, h3]

theorem visit_count_named (l : List (Item × Bool)) (ctxt : EntryContext) :
    ((visit_all_items l ctxt).session.diags.countP isDupNamed) =
      ctxt.session.diags.countP isDupNamed +
        (if ctxt.main_fn.isSome
         then l.countP fun p => classify ctxt.defined_as_main p == EntryPointType.MainNamed
         else (l.countP fun p => classify ctxt.defined_as_main p == EntryPointType.MainNamed) - 1) := by
  induction l generalizing ctxt with
  | nil => cases hm : ctxt.main_fn <;> simp [visit_nil, hm]
  | cons p t ih =>
      rw [visit_cons, ih]
      simp only [find_item_defined, find_item_diags, find_item_main_fn,
        List.countP_append, stepDiags_count_named, List.countP_cons, classify]
      cases hm : ctxt.main_fn <;> simp [hm] <;> (try split_ifs) <;> omega

theorem visit_count_attr (l : List (Item × Bool)) (ctxt : EntryContext) :
    ((visit_all_items l ctxt).session.diags.countP isDupAttr) =
      ctxt.session.diags.countP isDupAttr +
        (if ctxt.attr_main_fn.isSome
         then l.countP fun p => classify ctxt.defined_as_main p == EntryPointType.MainAttr
         else (l.countP fun p => classify ctxt.defined_as_main p == EntryPointType.MainAttr) - 1) := by
  induction l generalizing ctxt with
  | nil => cases hm : ctxt.attr_main_fn <;> simp [visit_nil, hm]
  | cons p t ih =>
      rw [visit_cons, ih]
      simp only [find_item_defined, find_item_diags, find_item_attr_fn,
        List.countP_append, stepDiags_count_attr, List.countP_cons, classify]
      cases hm : ctxt.attr_main_fn <;> simp [hm] <;> (try split_ifs) <;> omega

theorem visit_count_start (l : List (Item × Bool)) (ctxt : EntryContext) :
    ((visit_all_items l ctxt).session.diags.countP isDupStart) =
      ctxt.session.diags.countP isDupStart +
        (if ctxt.start_fn.isSome
         then l.countP fun p => classify ctxt.defined_as_main p == EntryPointType.Start
         else (l.countP fun p => classify ctxt.defined_as_main p == EntryPointType.Start) - 1) := by
  induction l generalizing ctxt with
  | nil => cases hm : ctxt.start_fn <;> simp [visit_nil, hm]
  | cons p t ih =>
      rw [visit_cons, ih]
      simp only [find_item_defined, find_item_diags, find_item_start_fn,
        List.countP_append, stepDiags_count_start, List.countP_cons, classify]
      cases hm : ctxt.start_fn <;> simp [hm] <;> (try split_ifs) <;> omega

theorem visit_count_other (q : Diagnostic → Bool)
    (h1 : ∀ s, q (Diagnostic.duplicateMainNamed s) = false)
    (h2 : ∀ s u, q (Diagnostic.duplicateMainAttr s u) = false)
    (h3 : ∀ s u, q (Diagnostic.duplicateStart s u) = false)
    (l : List (Item × Bool)) (ctxt : EntryContext) :
    (visit_all_items l ctxt).session.diags.countP q =
      ctxt.session.diags.countP q := by
  induction l generalizing ctxt with
  | nil => rfl
  | cons p t ih =>
      rw [visit_cons, ih, find_item_diags, List.countP_append,
        stepDiags_count_other q h1 h2 h3, Nat.add_zero]

/-! ### Concrete programs used by witnesses and counterexamples -/

/-- A session for an executable crate, fresh: empty sink, unset outcome. -/
def exeSession : Session :=
  { crate_types := [.CrateTypeExecutable]
    entry_fn := none
    entry_type := none
    features_reexport_unstable := false
    diags := [] }

/-- A session for a library (non-executable) crate. -/
def libSession : Session :=
  { crate_types := [.CrateTypeRlib]
    entry_fn := none
    entry_type := none
    features_reexport_unstable := false
    diags := [] }

/-- `use x as main;` at span 10. -/
def useMain1 : Item :=
  { id := 1, name := "x", attrs := []
    node := .ItemUse (.ViewPathSimple "main"), span := 10 }

/-- A second `use y as main;` at span 20. -/
def useMain2 : Item :=
  { id := 2, name := "y", attrs := []
    node := .ItemUse (.ViewPathSimple "main"), span := 20 }

/-- A root-level `fn main` at span 30. -/
def fnMain1 : Item :=
  { id := 3, name := "main", attrs := [], node := .ItemFn, span := 30 }

/-- A second root-level `fn main` at span 40. -/
def fnMain2 : Item :=
  { id := 4, name := "main", attrs := [], node := .ItemFn, span := 40 }

/-- A `#[main] fn g` at span 70. -/
def fnAttrMain : Item :=
  { id := 7, name := "g", attrs := ["main"], node := .ItemFn, span := 70 }

/-- A `#[start] fn h` at span 80. -/
def fnStart : Item :=
  { id := 8, name := "h", attrs := ["start"], node := .ItemFn, span := 80 }

/-- A non-root `fn main` at span 90. -/
def fnMainNR : Item :=
  { id := 9, name := "main", attrs := [], node := .ItemFn, span := 90 }

/-- A context in which every exclusive slot is already occupied. -/
def occCtxt : EntryContext :=
  { session := exeSession
    main_fn := some (3, 30)
    imported_main_fn := none
    attr_main_fn := some (5, 50)
    start_fn := some (6, 60)
    non_main_fns := []
    defined_as_main := [] }

/-- A context with no candidate of any kind and one `OtherMain` hint. -/
def hintCtxt : EntryContext :=
  { session := exeSession
    main_fn := none
    imported_main_fn := none
    attr_main_fn := none
    start_fn := none
    non_main_fns := [(9, 90)]
    defined_as_main := [] }

theorem countP_reverse_eq {α : Type} (q : α → Bool) (l : List α) :
    l.reverse.countP q = l.countP q := by
  induction l with
  | nil => rfl
  | cons a t ih =>
      simp [List.reverse_cons, List.countP_append, List.countP_cons, ih]

theorem firstCand_isSome_of_pos (dm : List DefId) (k : EntryPointType)
    (l : List (Item × Bool))
    (h : 0 < l.countP fun p => classify dm p == k) :
    (firstCand dm k l).isSome = true := by
  induction l with
  | nil => simp at h
  | cons p t ih =>
      by_cases hk : classify dm p = k
      · simp [firstCand, hk]
      · rw [List.countP_cons] at h
        rw [firstCand, if_neg hk]
        apply ih
        simpa [hk] using h

theorem lastCand_isSome_of_pos (dm : List DefId) (k : EntryPointType)
    (l : List (Item × Bool))
    (h : 0 < l.countP fun p => classify dm p == k) :
    (lastCand dm k l).isSome = true := by
  unfold lastCand
  apply firstCand_isSome_of_pos
  rw [countP_reverse_eq]
  exact h

/-! ### The claims -/

/-- C1 counterexample: two `use … as main` items both classify `ImportedMain`;
after the pass the retained candidate is the *second*-visited one, `(2, 20)`,
not the first `(1, 10)`, and the diagnostic sink is still empty — the second
occurrence overwrote the first instead of being reported as a conflict. -/
theorem claim1_counterexample :
    (visit_all_items [(useMain1, true), (useMain2, true)]
        (initialCtxt exeSession [])).imported_main_fn = some (2, 20)
    ∧ (visit_all_items [(useMain1, true), (useMain2, true)]
        (initialCtxt exeSession [])).imported_main_fn ≠ some (1, 10)
    ∧ (visit_all_items [(useMain1, true), (useMain2, true)]
        (initialCtxt exeSession [])).session.diags = [] := by
  decide

/-- C1 (amended): for `Start`, `MainAttribute` and `MainNamed` the candidate
retained after the full pass is the earliest-visited declaration of that kind
— once recorded it is never replaced, later same-kind occurrences being
reported as conflicts instead (their counts are settled with C2); for
`ImportedMain` the retained candidate is the *latest*-visited declaration of
that kind: an `ImportedMain` occurrence always just overwrites the slot,
leaving the rest of the state — the diagnostic sink included — untouched. -/
theorem claim1_retained_candidates (l : List (Item × Bool)) (sess : Session)
    (dm : List DefId) :
    (visit_all_items l (initialCtxt sess dm)).main_fn
        = firstCand dm .MainNamed l
    ∧ (visit_all_items l (initialCtxt sess dm)).attr_main_fn
        = firstCand dm .MainAttr l
    ∧ (visit_all_items l (initialCtxt sess dm)).start_fn
        = firstCand dm .Start l
    ∧ (visit_all_items l (initialCtxt sess dm)).imported_main_fn
        = lastCand dm .ImportedMain l
    ∧ (∀ (item : Item) (ctxt : EntryContext) (ar : Bool),
        entry_point_type item ar (ctxt.defined_as_main.contains item.id)
            = EntryPointType.ImportedMain →
        find_item item ctxt ar
          = { ctxt with imported_main_fn := some (item.id, item.span) }) := by
  refine ⟨?_, ?_, ?_, ?_, ?_⟩
  · have h := visit_main_fn l (initialCtxt sess dm)
    simpa [initialCtxt] using h
  · have h := visit_attr_fn l (initialCtxt sess dm)
    simpa [initialCtxt] using h
  · have h := visit_start_fn l (initialCtxt sess dm)
    simpa [initialCtxt] using h
  · have h := visit_imported_fn l (initialCtxt sess dm)
    simp only [initialCtxt] at h ⊢
    rw [h]
    cases h2 : lastCand dm .ImportedMain l <;> simp [h2]
  · intro item ctxt ar h
    unfold find_item
    rw [h]

/-- Witness for C1: on a one-item program the retained `ImportedMain`
candidate is the one the characterization predicts, and a further
`ImportedMain` occurrence rewrites the slot of a fresh context. -/
theorem claim1_witness :
    (visit_all_items [(useMain1, true)]
        (initialCtxt exeSession [])).imported_main_fn
        = lastCand [] .ImportedMain [(useMain1, true)]
    ∧ find_item useMain2 (initialCtxt exeSession []) true
        = { initialCtxt exeSession [] with
            imported_main_fn := some (useMain2.id, useMain2.span) } :=
  ⟨(claim1_retained_candidates [(useMain1, true)] exeSession []).2.2.2.1,
   (claim1_retained_candidates [] exeSession []).2.2.2.2 useMain2
     (initialCtxt exeSession []) true (by decide)⟩

/-- C2 counterexample: two declarations classify `ImportedMain`
(`count = 2`), yet the pass emits zero diagnostics, not `count - 1 = 1`. -/
theorem claim2_counterexample :
    ((([(useMain1, true), (useMain2, true)] : List (Item × Bool)).countP
        fun p => classify [] p == EntryPointType.ImportedMain) = 2)
    ∧ (visit_all_items [(useMain1, true), (useMain2, true)]
        (initialCtxt exeSession [])).session.diags.length = 0
    ∧ (0 : Nat) ≠ 2 - 1 := by
  decide

/-- C2 (amended): for each of `Start`, `MainAttribute`, `MainNamed`, a pass
visiting `count ≥ 1` declarations of that kind retains exactly one candidate
and emits exactly `count - 1` duplicate diagnostics of that kind; for
`ImportedMain` one candidate is retained when `count ≥ 1` but *zero* conflict
diagnostics are emitted — indeed the pass emits nothing beyond the three
duplicate-diagnostic forms. -/
theorem claim2_duplicate_counts (l : List (Item × Bool)) (sess : Session)
    (dm : List DefId) :
    ((visit_all_items l (initialCtxt sess dm)).session.diags.countP isDupNamed
        = sess.diags.countP isDupNamed
          + ((l.countP fun p => classify dm p == EntryPointType.MainNamed) - 1))
    ∧ ((visit_all_items l (initialCtxt sess dm)).session.diags.countP isDupAttr
        = sess.diags.countP isDupAttr
          + ((l.countP fun p => classify dm p == EntryPointType.MainAttr) - 1))
    ∧ ((visit_all_items l (initialCtxt sess dm)).session.diags.countP isDupStart
        = sess.diags.countP isDupStart
          + ((l.countP fun p => classify dm p == EntryPointType.Start) - 1))
    ∧ ((0 < l.countP fun p => classify dm p == EntryPointType.MainNamed) →
        (visit_all_items l (initialCtxt sess dm)).main_fn.isSome = true)
    ∧ ((0 < l.countP fun p => classify dm p == EntryPointType.MainAttr) →
        (visit_all_items l (initialCtxt sess dm)).attr_main_fn.isSome = true)
    ∧ ((0 < l.countP fun p => classify dm p == EntryPointType.Start) →
        (visit_all_items l (initialCtxt sess dm)).start_fn.isSome = true)
    ∧ ((0 < l.countP fun p => classify dm p == EntryPointType.ImportedMain) →
        (visit_all_items l (initialCtxt sess dm)).imported_main_fn.isSome = true)
    ∧ ((visit_all_items l (initialCtxt sess dm)).session.diags.countP
          (fun d => !(isDupNamed d || isDupAttr d || isDupStart d))
        = sess.diags.countP
            fun d => !(isDupNamed d || isDupAttr d || isDupStart d)) := by
  refine ⟨?_, ?_, ?_, ?_, ?_, ?_, ?_, ?_⟩
  · have h := visit_count_named l (initialCtxt sess dm)
    simpa [initialCtxt] using h
  · have h := visit_count_attr l (initialCtxt sess dm)
    simpa [initialCtxt] using h
  · have h := visit_count_start l (initialCtxt sess dm)
    simpa [initialCtxt] using h
  · intro hp
    have h := visit_main_fn l (initialCtxt sess dm)
    simp only [initialCtxt] at h ⊢
    rw [h]
    exact firstCand_isSome_of_pos dm _ l hp
  · intro hp
    have h := visit_attr_fn l (initialCtxt sess dm)
    simp only [initialCtxt] at h ⊢
    rw [h]
    exact firstCand_isSome_of_pos dm _ l hp
  · intro hp
    have h := visit_start_fn l (initialCtxt sess dm)
    simp only [initialCtxt] at h ⊢
    rw [h]
    exact firstCand_isSome_of_pos dm _ l hp
  · intro hp
    have h := visit_imported_fn l (initialCtxt sess dm)
    simp only [initialCtxt] at h ⊢
    rw [h]
    have hl := lastCand_isSome_of_pos dm _ l hp
    cases h2 : lastCand dm .ImportedMain l <;> simp_all
  · exact visit_count_other _ (fun s => rfl) (fun s u => rfl) (fun s u => rfl)
      l (initialCtxt sess dm)

/-- Witness for C2: a two-`ImportedMain` program retains a candidate, and the
duplicate-`main` count law evaluates at it. -/
theorem claim2_witness :
    (0 < (([(useMain1, true), (useMain2, true)] : List (Item × Bool)).countP
        fun p => classify [] p == EntryPointType.ImportedMain))
    ∧ (visit_all_items [(useMain1, true), (useMain2, true)]
        (initialCtxt exeSession [])).imported_main_fn.isSome = true
    ∧ (visit_all_items [(useMain1, true), (useMain2, true)]
          (initialCtxt exeSession [])).session.diags.countP isDupNamed
        = exeSession.diags.countP isDupNamed
          + ((([(useMain1, true), (useMain2, true)] : List (Item × Bool)).countP
              fun p => classify [] p == EntryPointType.MainNamed) - 1) := by
  refine ⟨by decide, ?_, ?_⟩
  · exact (claim2_duplicate_counts [(useMain1, true), (useMain2, true)]
      exeSession []).2.2.2.2.2.2.1 (by decide)
  · exact (claim2_duplicate_counts [(useMain1, true), (useMain2, true)]
      exeSession []).1

/-- C3 counterexample: two root-level `fn main`s; the emitted duplicate-name
conflict is `duplicateMainNamed 40`, which references only the offending
location 40 and not the location 30 of the first-retained candidate. -/
theorem claim3_counterexample :
    (visit_all_items [(fnMain1, true), (fnMain2, true)]
        (initialCtxt exeSession [])).session.diags
      = [Diagnostic.duplicateMainNamed 40]
    ∧ ¬ (30 ∈ (Diagnostic.duplicateMainNamed 40).spans) := by
  decide

/-- C3 (amended): the duplicate-`#[main]` (E0137) and duplicate-`#[start]`
(E0138) conflicts carry both the first/previous candidate's location and the
offending location; the duplicate-`main`-named conflict (E0136) carries only
the offending location, not the first candidate's. -/
theorem claim3_duplicate_diag_locations (item : Item) (ctxt : EntryContext)
    (ar : Bool) :
    (∀ c : NodeId × Span,
      entry_point_type item ar (ctxt.defined_as_main.contains item.id)
          = EntryPointType.MainAttr →
      ctxt.attr_main_fn = some c →
      (find_item item ctxt ar).session.diags
          = ctxt.session.diags ++ [Diagnostic.duplicateMainAttr item.span c.2]
        ∧ (Diagnostic.duplicateMainAttr item.span c.2).spans
            = [item.span, c.2])
    ∧ (∀ c : NodeId × Span,
      entry_point_type item ar (ctxt.defined_as_main.contains item.id)
          = EntryPointType.Start →
      ctxt.start_fn = some c →
      (find_item item ctxt ar).session.diags
          = ctxt.session.diags ++ [Diagnostic.duplicateStart c.2 item.span]
        ∧ (Diagnostic.duplicateStart c.2 item.span).spans
            = [c.2, item.span])
    ∧ (∀ c : NodeId × Span,
      entry_point_type item ar (ctxt.defined_as_main.contains item.id)
          = EntryPointType.MainNamed →
      ctxt.main_fn = some c →
      (find_item item ctxt ar).session.diags
          = ctxt.session.diags ++ [Diagnostic.duplicateMainNamed item.span]
        ∧ (Diagnostic.duplicateMainNamed item.span).spans = [item.span]) := by
  refine ⟨?_, ?_, ?_⟩ <;> intro c h hm <;> unfold find_item <;> rw [h, hm] <;>
    exact ⟨rfl, rfl⟩

/-- Witness for C3: in the fully occupied context, one further occurrence of
each kind emits its conflict with the concrete locations shown. -/
theorem claim3_witness :
    ((find_item fnAttrMain occCtxt true).session.diags
        = occCtxt.session.diags ++ [Diagnostic.duplicateMainAttr 70 50])
    ∧ ((find_item fnStart occCtxt true).session.diags
        = occCtxt.session.diags ++ [Diagnostic.duplicateStart 60 80])
    ∧ ((find_item fnMain2 occCtxt true).session.diags
        = occCtxt.session.diags ++ [Diagnostic.duplicateMainNamed 40]) :=
  ⟨((claim3_duplicate_diag_locations fnAttrMain occCtxt true).1 (5, 50)
      (by decide) rfl).1,
   ((claim3_duplicate_diag_locations fnStart occCtxt true).2.1 (6, 60)
      (by decide) rfl).1,
   ((claim3_duplicate_diag_locations fnMain2 occCtxt true).2.2 (3, 30)
      (by decide) rfl).1⟩

/-- The specification's import rule: an import form's effective bound name is
the reserved entry name exactly via a direct rename (`ViewPathSimple`) or via
a list import one of whose items is renamed to the entry name; glob imports
never qualify. -/
def boundAsEntry : ViewPath_ → Bool
  | .ViewPathSimple n => n == "main"
  | .ViewPathGlob => false
  | .ViewPathList items => items.any fun i => i.rename == some "main"

/-- The Classifier rule cascade exactly as the specification words it,
first-match-wins: non-function non-import → `None`; `start` attribute →
`Start`; entry attribute → `MainAttr`; entry-named and at root →
`MainNamed`; entry-named, not at root, externally re-exported →
`ImportedMain`; entry-named otherwise → `OtherMain`; re-exported →
`ImportedMain`; otherwise `None`.  Import forms map to `ImportedMain`
exactly when `boundAsEntry` holds. -/
def classifySpec (item : Item) (at_root : Bool)
    (is_reexported_as_entry : Bool) : EntryPointType :=
  match item.node with
  | .ItemUse vp => if boundAsEntry vp then .ImportedMain else .None
  | .ItemOther => .None
  | .ItemFn =>
    if item.attrs.contains "start" then .Start
    else if item.attrs.contains "main" then .MainAttr
    else if item.name == "main" && at_root then .MainNamed
    else if item.name == "main" && !at_root && is_reexported_as_entry then
      .ImportedMain
    else if item.name == "main" then .OtherMain
    else if is_reexported_as_entry then .ImportedMain
    else .None

theorem imported_as_main_eq_boundAsEntry (vp : ViewPath_) :
    imported_as_main vp = boundAsEntry vp := by
  cases vp with
  | ViewPathSimple n => rfl
  | ViewPathGlob => rfl
  | ViewPathList v =>
      simp only [imported_as_main, boundAsEntry]
      induction v with
      | nil => rfl
      | cons i t ih =>
          simp only [List.any_cons, ih]
          cases h : i.rename <;> rfl

/-- C5: the implemented classifier coincides, on every declaration and every
(at_root, re-exported) context, with the specification's rule cascade in the
exact stated order, including the import rule (direct rename or renamed
list-import item; glob imports never qualify). -/
theorem claim5_classifier_order (item : Item) (ar re : Bool) :
    entry_point_type item ar re = classifySpec item ar re := by
  unfold entry_point_type classifySpec
  cases hn : item.node with
  | ItemFn =>
      simp only [contains_name]
      cases ar <;> cases re <;> split_ifs <;> simp_all
  | ItemUse vp => simp [imported_as_main_eq_boundAsEntry]
  | ItemOther => rfl

/-- C4: for every `ResolutionState` with at least one candidate present, the
selector returns the candidate of the highest-precedence kind present, under
the fixed order `Start` > `MainAttribute` > `MainNamed` > `ImportedMain`,
tagging `Start`'s winner `EntryStart` and every other winner `EntryMain`.
Since `configure_main` is a pure function of the accumulated state, the
choice cannot depend on the visitation order that populated the state. -/
theorem claim4_selector_precedence (ctxt : EntryContext)
    (h : ctxt.start_fn.isSome ∨ ctxt.attr_main_fn.isSome ∨ ctxt.main_fn.isSome
        ∨ ctxt.imported_main_fn.isSome) :
    ((configure_main ctxt).session.entry_fn,
      (configure_main ctxt).session.entry_type)
      = if ctxt.start_fn.isSome then (ctxt.start_fn, some EntryType.EntryStart)
        else if ctxt.attr_main_fn.isSome then
          (ctxt.attr_main_fn, some EntryType.EntryMain)
        else if ctxt.main_fn.isSome then (ctxt.main_fn, some EntryType.EntryMain)
        else (ctxt.imported_main_fn, some EntryType.EntryMain) := by
  unfold configure_main
  rcases h with h | h | h | h <;> split_ifs <;> simp_all

/-- Witness for C4: a state with every slot occupied selects the `start`
candidate with the `EntryStart` tag. -/
theorem claim4_witness :
    (occCtxt.start_fn.isSome ∨ occCtxt.attr_main_fn.isSome
        ∨ occCtxt.main_fn.isSome ∨ occCtxt.imported_main_fn.isSome)
    ∧ ((configure_main occCtxt).session.entry_fn,
        (configure_main occCtxt).session.entry_type)
        = (some (6, 60), some EntryType.EntryStart) := by
  refine ⟨by decide, ?_⟩
  rw [claim4_selector_precedence occCtxt (by decide)]
  decide

/-- Recognizer for the feature-gate diagnostic of the spec's taxonomy. -/
def isUnstable : Diagnostic → Bool
  | .unstableReexportEntry _ _ => true
  | _ => false

theorem configure_main_count (q : Diagnostic → Bool)
    (h4 : ∀ b hints, q (Diagnostic.mainNotFound b hints) = false)
    (this : EntryContext) :
    (configure_main this).session.diags.countP q
      = this.session.diags.countP q := by
  unfold configure_main
  split_ifs <;> simp [Session.emit, h4]

/-- C6 counterexample: a program whose single item is `use x as main;`, in a
session whose feature-gate state marks the re-export capability unstable.
The item classifies `ImportedMain` via the re-export (import) path and is
selected as the entry point, yet the pass emits no diagnostic whatsoever —
no feature-gate diagnostic is raised. -/
theorem claim6_counterexample :
    entry_point_type useMain1 true false = EntryPointType.ImportedMain
    ∧ (find_entry_point { exeSession with features_reexport_unstable := true }
        { attrs := [], items := [(useMain1, true)] } []).diags = []
    ∧ (find_entry_point { exeSession with features_reexport_unstable := true }
        { attrs := [], items := [(useMain1, true)] } []).entry_fn
        = some (1, 10) := by
  decide

/-- C6 (amended): the pass never consults the feature-gate state and never
raises a feature-gate diagnostic: a whole run adds no `unstableReexportEntry`
diagnostic to the sink, and an `ImportedMain`-classified declaration merely
writes the candidate slot, leaving the session — hence the sink — untouched. -/
theorem claim6_no_feature_gate (sess : Session) (krate : Krate)
    (dm : List DefId) :
    (find_entry_point sess krate dm).diags.countP isUnstable
        = sess.diags.countP isUnstable
    ∧ (∀ (item : Item) (ctxt : EntryContext) (ar : Bool),
        entry_point_type item ar (ctxt.defined_as_main.contains item.id)
            = EntryPointType.ImportedMain →
        find_item item ctxt ar
          = { ctxt with imported_main_fn := some (item.id, item.span) }) := by
  constructor
  · unfold find_entry_point
    rcases Bool.eq_false_or_eq_true
        (sess.crate_types.any fun ty => ty == CrateType.CrateTypeExecutable)
      with hexe | hexe
    · rw [hexe]
      rcases Bool.eq_false_or_eq_true (contains_name krate.attrs "no_main")
        with hnm | hnm
      · rw [hnm]
        rfl
      · rw [hnm]
        show (configure_main (visit_all_items krate.items
              (initialCtxt sess dm))).session.diags.countP isUnstable
            = sess.diags.countP isUnstable
        rw [configure_main_count isUnstable (fun b hints => rfl),
          visit_count_other isUnstable (fun s => rfl) (fun s u => rfl)
            (fun s u => rfl)]
        rfl
    · rw [hexe]
      rfl
  · intro item ctxt ar h
    unfold find_item
    rw [h]

/-- Witness for C6: concrete instances of both parts. -/
theorem claim6_witness :
    (find_entry_point { exeSession with features_reexport_unstable := true }
        { attrs := [], items := [(useMain2, true)] } []).diags.countP isUnstable
      = ({ exeSession with
            features_reexport_unstable := true } : Session).diags.countP
          isUnstable
    ∧ find_item useMain2 (initialCtxt exeSession []) true
        = { initialCtxt exeSession [] with
            imported_main_fn := some (useMain2.id, useMain2.span) } :=
  ⟨(claim6_no_feature_gate { exeSession with features_reexport_unstable := true }
      { attrs := [], items := [(useMain2, true)] } []).1,
   (claim6_no_feature_gate exeSession { attrs := [], items := [] } []).2
     useMain2 (initialCtxt exeSession []) true (by decide)⟩

/-- C7: when no candidate of any kind is present, the selector emits the
"main function not found" error: with a non-empty `OtherMain` hint list it
carries the crate-level note and one hint location per hinted occurrence,
otherwise it is the bare error.  In particular a program whose single
declaration is a non-root, non-re-exported `fn main` ends with exactly that
one error, carrying the note and exactly one hint location — that
declaration's span — and nothing else of the session changes. -/
theorem claim7_not_found (ctxt : EntryContext) (item : Item) (sess : Session)
    (kattrs : List String) (dm : List DefId) :
    (ctxt.start_fn = none → ctxt.attr_main_fn = none → ctxt.main_fn = none →
      ctxt.imported_main_fn = none →
      (configure_main ctxt).session.diags = ctxt.session.diags ++
        [if ctxt.non_main_fns.isEmpty then Diagnostic.mainNotFound false []
         else Diagnostic.mainNotFound true (ctxt.non_main_fns.map Prod.snd)])
    ∧ (item.node = ItemNode.ItemFn →
      contains_name item.attrs "start" = false →
      contains_name item.attrs "main" = false →
      item.name = "main" →
      dm.contains item.id = false →
      (sess.crate_types.any fun ty => ty == CrateType.CrateTypeExecutable)
          = true →
      contains_name kattrs "no_main" = false →
      find_entry_point sess { attrs := kattrs, items := [(item, false)] } dm
        = { sess with
            diags := sess.diags ++ [Diagnostic.mainNotFound true [item.span]] }) := by
  constructor
  · intro h1 h2 h3 h4
    unfold configure_main
    rw [h1, h2, h3, h4]
    by_cases he : ctxt.non_main_fns.isEmpty <;> simp [he, Session.emit]
  · intro h1 h2 h3 h4 h5 h6 h7
    have hept : entry_point_type item false (dm.contains item.id)
        = EntryPointType.OtherMain := by
      unfold entry_point_type
      rw [h1, h2, h3, h4, h5]
      simp
    have hfind : find_item item (initialCtxt sess dm) false
        = { initialCtxt sess dm with non_main_fns := [(item.id, item.span)] } := by
      unfold find_item
      show (match entry_point_type item false (dm.contains item.id) with
            | EntryPointType.MainNamed => _
            | EntryPointType.OtherMain => _
            | EntryPointType.MainAttr => _
            | EntryPointType.Start => _
            | EntryPointType.ImportedMain => _
            | EntryPointType.None => _)
          = _
      rw [hept]
      rfl
    unfold find_entry_point
    rw [h6]
    show (if contains_name kattrs "no_main" = true then
            { sess with entry_type := some EntryType.EntryNone }
          else (configure_main (visit_all_items [(item, false)]
            (initialCtxt sess dm))).session)
        = { sess with
            diags := sess.diags ++ [Diagnostic.mainNotFound true [item.span]] }
    rw [h7]
    show (configure_main (visit_all_items [(item, false)]
          (initialCtxt sess dm))).session
        = { sess with
            diags := sess.diags ++ [Diagnostic.mainNotFound true [item.span]] }
    rw [show visit_all_items [(item, false)] (initialCtxt sess dm)
        = find_item item (initialCtxt sess dm) false from rfl, hfind]
    unfold configure_main
    simp [initialCtxt, Session.emit]

/-- Witness for C7: the hinted context gets the noted error with hint
location 90, and the one-non-root-`main` program ends with exactly that
diagnostic in an otherwise unchanged session. -/
theorem claim7_witness :
    (configure_main hintCtxt).session.diags
        = hintCtxt.session.diags ++ [Diagnostic.mainNotFound true [90]]
    ∧ find_entry_point exeSession { attrs := [], items := [(fnMainNR, false)] } []
        = { exeSession with diags := [Diagnostic.mainNotFound true [90]] } := by
  constructor
  · have h := (claim7_not_found hintCtxt fnMainNR exeSession [] []).1
      rfl rfl rfl rfl
    simpa using h
  · have h := (claim7_not_found hintCtxt fnMainNR exeSession [] []).2
      rfl rfl rfl rfl rfl (by decide) rfl
    simpa using h

/-- C8: a crate none of whose output types is executable never produces a
resolution attempt: `find_entry_point` returns the session untouched —
outcome cells and diagnostic sink included — whatever the declarations. -/
theorem claim8_non_executable_skips (sess : Session) (krate : Krate)
    (dm : List DefId)
    (h : (sess.crate_types.any fun ty => ty == CrateType.CrateTypeExecutable)
        = false) :
    find_entry_point sess krate dm = sess := by
  unfold find_entry_point
  rw [h]
  rfl

/-- Witness for C8: a library crate holding a valid root-level `fn main` is
left completely untouched. -/
theorem claim8_witness :
    ((libSession.crate_types.any fun ty => ty == CrateType.CrateTypeExecutable)
        = false)
    ∧ find_entry_point libSession { attrs := [], items := [(fnMain1, true)] } []
        = libSession :=
  ⟨by decide, claim8_non_executable_skips _ _ _ (by decide)⟩

/-- C9: an executable crate carrying the `no_main` attribute short-circuits
before the pass: the outcome is set to exactly `EntryNone`, and nothing else
of the session changes — in particular zero diagnostics are emitted —
whatever declarations are present. -/
theorem claim9_no_main_attr (sess : Session) (krate : Krate) (dm : List DefId)
    (hexe : (sess.crate_types.any fun ty => ty == CrateType.CrateTypeExecutable)
        = true)
    (hnm : contains_name krate.attrs "no_main" = true) :
    find_entry_point sess krate dm
      = { sess with entry_type := some EntryType.EntryNone } := by
  unfold find_entry_point
  rw [hexe, hnm]
  rfl

/-- Witness for C9: an executable `no_main` crate with a root `fn main`
still gets outcome `EntryNone` and an empty sink. -/
theorem claim9_witness :
    ((exeSession.crate_types.any fun ty => ty == CrateType.CrateTypeExecutable)
        = true)
    ∧ contains_name ["no_main"] "no_main" = true
    ∧ find_entry_point exeSession
          { attrs := ["no_main"], items := [(fnMain1, true)] } []
        = { exeSession with entry_type := some EntryType.EntryNone } :=
  ⟨by decide, by decide, claim9_no_main_attr _ _ _ (by decide) (by decide)⟩

/-- C10: when no candidate of any kind is present the selector emits the
not-found error but never writes the session's `entry_fn` / `entry_type`
outcome cells, which keep exactly their pre-selection values; when some
candidate is present it writes both cells. -/
theorem claim10_outcome_frame (ctxt : EntryContext) :
    (ctxt.start_fn = none → ctxt.attr_main_fn = none → ctxt.main_fn = none →
      ctxt.imported_main_fn = none →
      (configure_main ctxt).session.entry_fn = ctxt.session.entry_fn
      ∧ (configure_main ctxt).session.entry_type = ctxt.session.entry_type)
    ∧ ((ctxt.start_fn.isSome ∨ ctxt.attr_main_fn.isSome ∨ ctxt.main_fn.isSome
        ∨ ctxt.imported_main_fn.isSome) →
      (configure_main ctxt).session.entry_fn.isSome
      ∧ (configure_main ctxt).session.entry_type.isSome) := by
  constructor
  · intro h1 h2 h3 h4
    unfold configure_main
    rw [h1, h2, h3, h4]
    by_cases he : ctxt.non_main_fns.isEmpty <;> simp [he, Session.emit]
  · intro h
    unfold configure_main
    rcases h with h | h | h | h <;> split_ifs <;> simp_all

/-- Witness for C10: the hinted not-found state leaves both outcome cells
untouched; a fully occupied state writes both. -/
theorem claim10_witness :
    ((configure_main hintCtxt).session.entry_fn = hintCtxt.session.entry_fn
      ∧ (configure_main hintCtxt).session.entry_type
          = hintCtxt.session.entry_type)
    ∧ ((configure_main occCtxt).session.entry_fn.isSome
      ∧ (configure_main occCtxt).session.entry_type.isSome) :=
  ⟨(claim10_outcome_frame hintCtxt).1 rfl rfl rfl rfl,
   (claim10_outcome_frame occCtxt).2 (Or.inl (by decide))⟩

end Rustc
